import Mathlib

/-!
Verification development for the `generator` repository: a set of Python
scripts that list GitHub repositories, fetch each repository README,
summarize it through an OpenAI endpoint, and serialize the result.

Shallow embedding notes.
* JSON values that can be absent, null, a string, an integer, or a list of
  strings are modelled by `Option JVal` (outer `none` = key absent,
  `JVal.jnull` = JSON null / Python `None`).
* Python exceptions are modelled by `PyErr`; `requests` raises only
  subclasses of `RequestException` (`isRequestException` in the model).
* Each script runs in `Py`, a state-plus-exception monad whose state is the
  trace of observable events (`Ev`): HTTP requests issued, lines printed to
  stdout/stderr (structured as `Msg`), and file writes.  f-strings with data
  are modelled as structured `Msg` constructors carrying the interpolated
  values.
* Numeric JSON fields are modelled as integers; floating-point/NaN
  propagation through pandas is out of scope.  A `pandas.DataFrame` built
  from a list of uniform dicts and read back row by row is modelled as the
  list of rows itself.
-/

/-- A Python/JSON value as it appears in the GitHub API responses used by
the scripts: null, a string, an integer, or a list of strings (topics). -/
inductive JVal where
  | jnull
  | jstr (s : String)
  | jint (n : Int)
  | jlist (xs : List String)
deriving DecidableEq, Repr

/-- Python exceptions that the embedded code can raise. -/
inductive PyErr where
  | transport (msg : String)
  | httpError (status : Nat)
  | keyError (k : String)
  | typeError
  | valueError
  | apiError (msg : String)
  | systemExit (code : Nat)
deriving DecidableEq, Repr

/-- `requests` raises only `RequestException` subclasses: transport errors
and `HTTPError` from `raise_for_status`. -/
def isRequestException : PyErr → Bool
  | .transport _ => true
  | .httpError _ => true
  | _ => false

/-- Rendering of an exception by `str(e)` inside f-strings (approximate,
but fixed and used consistently). -/
def pyErrStr : PyErr → String
  | .transport m => m
  | .httpError s => toString s ++ " Error"
  | .keyError k => k
  | .typeError => "TypeError"
  | .valueError => "ValueError"
  | .apiError m => m
  | .systemExit c => toString c

/-- Python truthiness for the modelled values. -/
def pyTruthy : JVal → Bool
  | .jnull => false
  | .jstr s => !(s == "")
  | .jint n => !(n == 0)
  | .jlist xs => !xs.isEmpty

/-- Python `a or b`. -/
def pyOr (a b : JVal) : JVal := if pyTruthy a then a else b

/-- Python `str()` of a modelled value (as interpolated into f-strings). -/
def pyStr : JVal → String
  | .jnull => "None"
  | .jstr s => s
  | .jint n => toString n
  | .jlist xs => toString xs

/-- Truthiness of `os.getenv` results / optional argparse strings. -/
def pyTruthyOpt : Option String → Bool
  | none => false
  | some s => !(s == "")

/-- `str()` of an optional argparse value (`None` prints as "None"). -/
def pyStrOpt : Option String → String
  | none => "None"
  | some s => s

/-- Split a character list at the first occurrence of `c` (`none` when `c`
does not occur).  All string helpers below are structurally recursive over
the character list, mirroring the Python semantics. -/
def splitFirst (c : Char) : List Char → Option (List Char × List Char)
  | [] => none
  | x :: xs =>
      if x == c then some ([], xs)
      else
        match splitFirst c xs with
        | none => none
        | some (a, b) => some (x :: a, b)

/-- Python `s.split('/', 1)`: a list of one element (no separator
occurrence) or exactly two elements (head, rest). -/
def pySplit1 (s : String) : List String :=
  match splitFirst '/' s.toList with
  | none => [s]
  | some (a, b) => [String.mk a, String.mk b]

/-- Split a character list at every occurrence of `c`. -/
def splitListChar (c : Char) : List Char → List (List Char)
  | [] => [[]]
  | x :: xs =>
      if x == c then [] :: splitListChar c xs
      else
        match splitListChar c xs with
        | [] => [[x]]
        | p :: rest => (x :: p) :: rest

/-- Python `s.split(c)` (unbounded split on a one-character separator). -/
def pySplitAll (c : Char) (s : String) : List String :=
  (splitListChar c s.toList).map String.mk

/-- Python whitespace (the characters removed by `str.strip()`). -/
def pyIsSpace (c : Char) : Bool :=
  c == ' ' || c == '\t' || c == '\n' || c == '\r'
    || c == Char.ofNat 11 || c == Char.ofNat 12

/-- Python `s.strip()`. -/
def pyStrip (s : String) : String :=
  String.mk ((((s.toList.dropWhile pyIsSpace).reverse).dropWhile
    pyIsSpace).reverse)

/-- Python `s[:n]` on strings (character-based slice). -/
def pySlice (n : Nat) (s : String) : String :=
  String.mk (s.toList.take n)

/-- Python `sep.join(parts)`. -/
def pyIntercalate (sep : String) : List String → String
  | [] => ""
  | x :: xs => xs.foldl (fun acc y => acc ++ sep ++ y) x

/-- Structured console messages (stand-ins for the scripts' exact print
strings; each constructor corresponds to one print site and carries the
interpolated data). -/
inductive Msg where
  | attemptPublic
  | publicStatus (status : Nat)
  | publicFailed (e : String)
  | attemptToken
  | authStatus (status : Nat)
  | responseContent (excerpt : String)
  | invalidRepoFormat (full : String)
  | couldNotFetch (full : String) (status : Nat)
  | fetchingSpecific (repoList : List String)
  | fetchingAllOrg (org : String)
  | envMissing
  | noReposFound
  | buildingCount (n : Nat)
  | generatedFor (name : String)
  | savedTo (path : String)
  | generatedCount (n : Nat)
  | featuredCount (n : Nat)
  | errorFetchingRepos (e : String)
  | foundCount (n : Nat)
  | repoLine (name : String) (url : String)
  | dfHeader
  | dfShown
  | savedCsv (path : String)
  | noReposOrError
deriving DecidableEq, Repr

/-- A network request issued by the scripts. -/
inductive Call where
  | get (url : String)
  | chat
  | completion
deriving DecidableEq, Repr

/-- Observable events: HTTP requests, stdout/stderr prints, file writes. -/
inductive Ev where
  | http (c : Call)
  | out (m : Msg)
  | err (m : Msg)
  | write (path : String)
deriving DecidableEq, Repr

/-- Number of network calls in a trace. -/
def netCalls (t : List Ev) : Nat :=
  t.countP fun e => match e with | .http _ => true | _ => false

/-- Number of chat-completion (summarization-endpoint) calls in a trace. -/
def chatCalls (t : List Ev) : Nat :=
  t.countP fun e => match e with | .http .chat => true | _ => false

/-- The effect monad of the embedding: state (event trace) + exceptions. -/
def Py (α : Type) : Type := List Ev → Except PyErr α × List Ev

instance : Monad Py where
  pure a := fun t => (.ok a, t)
  bind x f := fun t =>
    match x t with
    | (.ok a, t1) => f a t1
    | (.error e, t1) => (.error e, t1)

/-- Raise a Python exception. -/
def pyRaise (e : PyErr) : Py α := fun t => (.error e, t)

/-- Record an event. -/
def emit (ev : Ev) : Py Unit := fun t => (.ok (), t ++ [ev])

/-- Python `try ... except Exception: handler`. -/
def pyTry (x : Py α) (h : PyErr → Py α) : Py α := fun t =>
  match x t with
  | (.ok a, t1) => (.ok a, t1)
  | (.error e, t1) => h e t1

/-- Python `try ... except E: handler` for a selected exception class `p`
(other exceptions propagate). -/
def pyTryOn (p : PyErr → Bool) (x : Py α) (h : PyErr → Py α) : Py α := fun t =>
  match x t with
  | (.ok a, t1) => (.ok a, t1)
  | (.error e, t1) => if p e then h e t1 else (.error e, t1)

/-- `resp.raise_for_status()`: raises `HTTPError` for 4xx/5xx statuses. -/
def raiseForStatus (status : Nat) : Py Unit :=
  if 400 ≤ status && status < 600 then pyRaise (.httpError status) else pure ()

/-! ## GitHub / OpenAI response shapes and the network oracle -/

/-- A repository metadata object, as parsed from the GitHub JSON.  Every
field may be absent (`none`) or hold any JSON value. -/
structure RepoJson where
  name : Option JVal := none
  full_name : Option JVal := none
  html_url : Option JVal := none
  description : Option JVal := none
  language : Option JVal := none
  stargazers_count : Option JVal := none
  forks_count : Option JVal := none
  open_issues_count : Option JVal := none
  topics : Option JVal := none
deriving DecidableEq, Repr

/-- Response to a repository-list request (`resp.json()` is a list of
repository objects; `resp.text` is kept for the error-path print). -/
structure RespL where
  status : Nat
  body : List RepoJson
  text : String := ""
deriving Repr

/-- Response to a single-repository request. -/
structure RespR where
  status : Nat
  body : RepoJson
deriving Repr

/-- The README-metadata JSON (`GET /repos/{org}/{repo}/readme`). -/
structure ReadmeJson where
  download_url : Option JVal := none
deriving DecidableEq, Repr

/-- Response to a README-metadata request. -/
structure RespM where
  status : Nat
  meta : ReadmeJson
deriving Repr

/-- The environment the scripts talk to: each field gives the response (or
raised exception) for one kind of request, keyed by URL (for the OpenAI
endpoints, by prompt).  Distinct fields model distinct header sets (`token`
vs `Bearer` vs unauthenticated) on the same URLs. -/
structure Net where
  listUnauth : String → Except PyErr RespL
  listTok : String → Except PyErr RespL
  listBearer : String → Except PyErr RespL
  repoTok : String → Except PyErr RespR
  readmeTok : String → Except PyErr RespM
  readmeBearer : String → Except PyErr RespM
  download : String → Except PyErr String
  chat : String → Except PyErr String
  completion : String → Except PyErr String

/-- Issue an HTTP GET: the request event is recorded, then the oracle's
answer (value or raised exception) is returned. -/
def mGet (u : String) (resp : Except PyErr α) : Py α := fun t =>
  (resp, t ++ [.http (.get u)])

/-- Issue a chat-completion request. -/
def mChat (net : Net) (prompt : String) : Py String := fun t =>
  (net.chat prompt, t ++ [.http .chat])

/-- Issue a text-completion request. -/
def mCompletion (net : Net) (prompt : String) : Py String := fun t =>
  (net.completion prompt, t ++ [.http .completion])

/-- `requests.get(download_url)` where `download_url` is an arbitrary
value: a non-string URL raises (`MissingSchema`, a `RequestException`)
before any request is issued. -/
def mDownload (net : Net) : JVal → Py String
  | .jstr s => mGet s (net.download s)
  | _ => pyRaise (.transport "MissingSchema")

/-- `d[k]` on a modelled JSON object field: `KeyError` when absent. -/
def dictIndex (v : Option JVal) (k : String) : Py JVal :=
  match v with
  | some x => pure x
  | none => pyRaise (.keyError k)

/-! ## URLs -/

def orgReposUrl (org : String) : String :=
  "https://api.github.com/orgs/" ++ org ++ "/repos"

def repoUrl (org repo : String) : String :=
  "https://api.github.com/repos/" ++ org ++ "/" ++ repo

def readmeUrl (org repo : String) : String :=
  "https://api.github.com/repos/" ++ org ++ "/" ++ repo ++ "/readme"

/-! ## Portfolio (JSON) variant: `src/scripts/gen_repo_summaries.py` -/

/-- `fetch_repositories(org, token)` (scripts variant, lines 14-47): one
unauthenticated attempt returning the body on status 200, any exception
logged and swallowed; then an authenticated attempt whose exceptions
propagate and whose non-2xx statuses raise via `raise_for_status`. -/
def fetch_repositories (net : Net) (org : String) : Py (List RepoJson) := do
  emit (.out .attemptPublic)
  let first ← pyTry
    (do
      let resp ← mGet (orgReposUrl org) (net.listUnauth (orgReposUrl org))
      emit (.out (.publicStatus resp.status))
      if resp.status == 200 then pure (some resp.body) else pure none)
    (fun e => do
      emit (.out (.publicFailed (pyErrStr e)))
      pure none)
  match first with
  | some body => pure body
  | none => do
      emit (.out .attemptToken)
      let resp ← mGet (orgReposUrl org) (net.listTok (orgReposUrl org))
      emit (.out (.authStatus resp.status))
      if resp.status != 200 then
        emit (.out (.responseContent (pySlice 500 resp.text)))
      raiseForStatus resp.status
      pure resp.body

/-- `fetch_specific_repos(repo_list, token)` (scripts variant, lines
50-69): per entry, `full.split('/', 1)` (a `ValueError` on a slash-less
entry is caught: warn and skip); then a token-authenticated GET whose
exceptions propagate; non-200 statuses warn and skip. -/
def fetch_specific_repos (net : Net) : List String → Py (List RepoJson)
  | [] => pure []
  | full :: rest =>
    match pySplit1 full with
    | [org, repo] => do
        let resp ← mGet (repoUrl org repo) (net.repoTok (repoUrl org repo))
        if resp.status == 200 then do
          let results ← fetch_specific_repos net rest
          pure (resp.body :: results)
        else do
          emit (.err (.couldNotFetch full resp.status))
          fetch_specific_repos net rest
    | _ => do
        emit (.err (.invalidRepoFormat full))
        fetch_specific_repos net rest

/-- `fetch_readme(org, repo, token)` (scripts variant, lines 72-83):
metadata GET, `raise_for_status`, `data.get('download_url')`; a falsy
download URL returns `""` without a second request; otherwise an
unauthenticated GET of the URL returns its text.  No exception handling. -/
def fetch_readme (net : Net) (org repo : String) : Py String := do
  let resp ← mGet (readmeUrl org repo) (net.readmeTok (readmeUrl org repo))
  raiseForStatus resp.status
  let downloadUrl := resp.meta.download_url.getD .jnull
  if pyTruthy downloadUrl == false then pure ""
  else mDownload net downloadUrl

/-- One row of the portfolio DataFrame (plus README; the summary column is
added separately, mirroring `add_summaries`). -/
structure Row where
  Name : String
  FullName : String
  URL : JVal
  Description : JVal
  Language : JVal
  Stars : JVal
  Forks : JVal
  OpenIssues : JVal
  Topics : JVal
  README : String
deriving DecidableEq, Repr

/-- `create_repo_dataframe(repos, token)` (scripts variant, lines 89-113):
entries whose `full_name` (default `''`) has no `'/'` are skipped
(`continue`); the `'/' not in full` test followed by
`full.split('/', 1)` is modelled as one match on `pySplit1`: the
separator occurs in `full` exactly when the one-split yields two parts.
The README fetch is wrapped in `try/except Exception` degrading to `""`;
missing fields default via `dict.get`, `description`/`language`
additionally via `or ''`.  A non-string `full_name` raises `TypeError`
at `'/' not in full`. -/
def create_repo_dataframe (net : Net) : List RepoJson → Py (List Row)
  | [] => pure []
  | r :: rest => do
      match r.full_name.getD (.jstr "") with
      | .jstr full =>
          match pySplit1 full with
          | [org, nm] => do
              let readme ← pyTry (fetch_readme net org nm) (fun _ => pure "")
              let row : Row := {
                Name := nm
                FullName := full
                URL := r.html_url.getD (.jstr "")
                Description := pyOr (r.description.getD .jnull) (.jstr "")
                Language := pyOr (r.language.getD .jnull) (.jstr "")
                Stars := r.stargazers_count.getD (.jint 0)
                Forks := r.forks_count.getD (.jint 0)
                OpenIssues := r.open_issues_count.getD (.jint 0)
                Topics := r.topics.getD (.jlist [])
                README := readme }
              let rest' ← create_repo_dataframe net rest
              pure (row :: rest')
          | _ => create_repo_dataframe net rest
      | _ => pyRaise .typeError

/-- `', '.join(topics)`: joins a list (or the characters of a string);
any other truthy value raises `TypeError`. -/
def pyJoin (sep : String) : JVal → Py String
  | .jlist xs => pure (pyIntercalate sep xs)
  | .jstr s => pure (pyIntercalate sep (s.toList.map Char.toString))
  | _ => pyRaise .typeError

/-- `topics` values on which `', '.join` cannot raise (`join` is only
reached on truthy values, and only a truthy integer raises). -/
def joinable : JVal → Bool
  | .jint _ => false
  | _ => true

/-- The `context_info` string built by `summarize_readme` (lines 121-128). -/
def build_context (nm : String) (lang desc topics : JVal) : Py String := do
  let c0 := "Repository: " ++ nm
  let c1 := if pyTruthy lang then c0 ++ " (Built with " ++ pyStr lang ++ ")" else c0
  let c2 := if pyTruthy desc then c1 ++ "\nGitHub Description: " ++ pyStr desc else c1
  if pyTruthy topics then do
    let j ← pyJoin ", " topics
    pure (c2 ++ "\nTopics/Tags: " ++ j)
  else pure c2

/-- A single-quote character (the prompt template contains one inside a
word; written via its code point to keep the source free of bare quote
characters). -/
def squo : String := Char.toString (Char.ofNat 39)

/-- Leading part of the prompt template of `summarize_readme`. -/
def promptHeader : String :=
  "Create an engaging portfolio summary for this software project. Focus on:\n- What the project does and its main purpose\n- Key features and capabilities\n- Technical implementation highlights\n- Why it" ++ squo ++ "s impressive or noteworthy\n\n"

/-- The full prompt of `summarize_readme` (lines 130-141): header, context
info, a README excerpt truncated to 3000 characters (or a placeholder),
and the closing instruction. -/
def build_prompt (ctx content : String) : String :=
  promptHeader ++ ctx ++ "\n\nREADME Content:\n"
    ++ (if !(content == "") then pySlice 3000 content else "No README available")
    ++ "\n\nWrite a compelling 3-4 sentence summary that would showcase this project well in a developer portfolio. Make it sound professional but engaging, highlighting the technical skills and problem-solving involved."

/-- The fallback sentence of `summarize_readme` (line 159) used when the
OpenAI call fails and the description is truthy. -/
def fallback_sentence (desc lang : JVal) : String :=
  pyStr desc ++ " This " ++ pyStr (pyOr lang (.jstr "software"))
    ++ " project demonstrates practical development skills and problem-solving capabilities."

/-- The error marker of `summarize_readme` (line 160) used when the OpenAI
call fails and the description is falsy. -/
def error_marker (e : PyErr) : String :=
  "[Error generating summary: " ++ pyErrStr e ++ "]"

/-- `summarize_readme(content, repo_name, language, description, topics)`
(scripts variant, lines 116-160): returns `""` immediately when both the
README content and the description are falsy; otherwise builds the prompt,
makes one chat-completion attempt inside `try/except Exception`, and on
failure falls back to `fallback_sentence` (truthy description) or
`error_marker`. -/
def summarize_readme (net : Net) (content : String) (nm : String)
    (lang desc topics : JVal) : Py String := do
  if content == "" && pyTruthy desc == false then pure ""
  else do
    let ctx ← build_context nm lang desc topics
    let prompt := build_prompt ctx content
    pyTry
      (do
        let r ← mChat net prompt
        pure (pyStrip r))
      (fun e =>
        if pyTruthy desc then pure (fallback_sentence desc lang)
        else pure (error_marker e))

/-- `add_summaries(df)` (scripts variant, lines 163-178): one summary per
row, in order, printing a progress line after each. -/
def add_summaries (net : Net) : List Row → Py (List (Row × String))
  | [] => pure []
  | row :: rest => do
      let s ← summarize_readme net row.README row.Name row.Language
        row.Description row.Topics
      emit (.out (.generatedFor row.Name))
      let rest' ← add_summaries net rest
      pure ((row, s) :: rest')

/-- One output record of the JSON variant (`main`, lines 221-236).  The
`stars` field is the integer extracted when Python evaluates
`row['Stars'] > 5` while computing `featured` (a record only exists when
that comparison succeeded, i.e. when `Stars` is an integer); `forks` is
stored verbatim and is only inspected when `stars <= 5`. -/
structure PortRec where
  name : String
  fullName : String
  url : JVal
  description : JVal
  language : JVal
  stars : Int
  forks : JVal
  openIssues : JVal
  topics : JVal
  summary : String
  featured : Bool
deriving DecidableEq, Repr

/-- Python `v > n` for a modelled value against an int literal: raises
`TypeError` unless `v` is an integer. -/
def pyGtInt (v : JVal) (n : Int) : Py Bool :=
  match v with
  | .jint m => pure (n < m)
  | _ => pyRaise .typeError

/-- The record-building loop of `main` (lines 221-236), including the
short-circuit evaluation of `row['Stars'] > 5 or row['Forks'] > 2`. -/
def build_records : List (Row × String) → Py (List PortRec)
  | [] => pure []
  | (row, summ) :: rest => do
      match row.Stars with
      | .jint s => do
          let featured ← if 5 < s then pure true else pyGtInt row.Forks 2
          let r : PortRec := {
            name := row.Name
            fullName := row.FullName
            url := row.URL
            description := row.Description
            language := row.Language
            stars := s
            forks := row.Forks
            openIssues := row.OpenIssues
            topics := row.Topics
            summary := summ
            featured := featured }
          let rest' ← build_records rest
          pure (r :: rest')
      | _ => pyRaise .typeError

/-- The sort relation of `records.sort(key=lambda x: x['stars'],
reverse=True)`: descending by stars. -/
def recGE (a b : PortRec) : Prop := b.stars ≤ a.stars

instance : DecidableRel recGE := fun a b => Int.decLe b.stars a.stars

instance : IsTotal PortRec recGE := ⟨fun a b => le_total b.stars a.stars⟩

instance : IsTrans PortRec recGE := ⟨fun _ _ _ h1 h2 => le_trans h2 h1⟩

/-- The tail of `main` after a non-empty repository list was obtained
(lines 216-247): build the DataFrame, add summaries, build the JSON
records, stable-sort descending by stars (Python `list.sort` with
`reverse=True` is a stable sort, here insertion sort), write the file and
print the closing statistics.  Returns the records as written. -/
def scripts_pipeline (net : Net) (outFile : String)
    (reposJson : List RepoJson) : Py (List PortRec) := do
  emit (.out (.buildingCount reposJson.length))
  let df ← create_repo_dataframe net reposJson
  let df2 ← add_summaries net df
  let records ← build_records df2
  let sorted := List.insertionSort recGE records
  emit (.write outFile)
  emit (.out (.savedTo outFile))
  emit (.out (.generatedCount sorted.length))
  emit (.out (.featuredCount (sorted.countP (fun r => r.featured))))
  pure sorted

/-- The command-line arguments of the scripts variant (`--org_name` and
`--repos` are mutually exclusive in argparse, hence optional). -/
structure Args where
  org_name : Option String := none
  repos : Option String := none
  output_file : String := "portfolio_summaries.json"
deriving DecidableEq, Repr

/-- The two environment variables read by `main` (lines 195-196). -/
structure Env where
  github_token : Option String := none
  openai_api_key : Option String := none
deriving DecidableEq, Repr

/-- `main()` of the scripts variant (lines 184-247): check the environment
variables (exit 1 when either is falsy), fetch the repository list in the
selected mode, exit 1 on an empty list, then run the pipeline.
`sys.exit(1)` is modelled as raising `SystemExit`. -/
def scripts_main (net : Net) (env : Env) (args : Args) : Py (List PortRec) := do
  if pyTruthyOpt env.github_token == false
      || pyTruthyOpt env.openai_api_key == false then do
    emit (.err .envMissing)
    pyRaise (.systemExit 1)
  else do
    let reposJson ←
      if pyTruthyOpt args.repos then do
        let repoList := ((pySplitAll ',' (args.repos.getD "")).map pyStrip).filter
          (fun r => !(r == ""))
        emit (.out (.fetchingSpecific repoList))
        fetch_specific_repos net repoList
      else do
        emit (.out (.fetchingAllOrg (pyStrOpt args.org_name)))
        fetch_repositories net (pyStrOpt args.org_name)
    if reposJson.isEmpty then do
      emit (.err .noReposFound)
      pyRaise (.systemExit 1)
    else
      scripts_pipeline net args.output_file reposJson

/-- Exit status of a finished run: 0 on normal completion, the carried
code on `sys.exit`, 1 on any other uncaught exception. -/
def exitCode : Except PyErr α → Nat
  | .ok _ => 0
  | .error (.systemExit c) => c
  | .error _ => 1

/-! ## CSV variants: `src/get_repo_summaries.py` and
`src/gen_repo_summaries.py` (the helper functions below appear verbatim in
both files; `src/get_all_repos.py` shares `fetch_repositories`). -/

/-- `fetch_repositories(org_name, token)` (get_repo_summaries.py lines
40-50, gen_repo_summaries.py lines 42-52 with the org URL, and
get_all_repos.py lines 18-28): Bearer-authenticated GET plus
`raise_for_status` inside `try/except RequestException`; on a caught
failure prints the error and returns `[]`. -/
def grs_fetch_repositories (net : Net) (org : String) : Py (List RepoJson) :=
  pyTryOn isRequestException
    (do
      let resp ← mGet (orgReposUrl org) (net.listBearer (orgReposUrl org))
      raiseForStatus resp.status
      pure resp.body)
    (fun e => do
      emit (.out (.errorFetchingRepos (pyErrStr e)))
      pure [])

/-- `fetch_readme(name, repo_name, token)` (get_repo_summaries.py lines
52-62, gen_repo_summaries.py lines 54-64): Bearer-authenticated metadata
GET, `raise_for_status`, `readme_data['download_url']` (a `KeyError` on an
absent key is NOT caught), then an unauthenticated GET of the URL; only
`RequestException` is caught, yielding a formatted error string. -/
def grs_fetch_readme (net : Net) (owner repoName : String) : Py String :=
  pyTryOn isRequestException
    (do
      let resp ← mGet (readmeUrl owner repoName)
        (net.readmeBearer (readmeUrl owner repoName))
      raiseForStatus resp.status
      let du ← dictIndex resp.meta.download_url "download_url"
      mDownload net du)
    (fun e => pure ("Error fetching README: " ++ pyErrStr e))

/-- One row of the CSV DataFrame (the summary column is added
separately). -/
structure CRow where
  Name : JVal
  URL : JVal
  Description : JVal
  Language : JVal
  Stars : JVal
  Forks : JVal
  OpenIssues : JVal
  README : String
deriving DecidableEq, Repr

/-- `create_repo_dataframe(repos, name, token)` (get_repo_summaries.py
lines 64-79, gen_repo_summaries.py lines 66-81): per repository, fetch the
README (passing `repo['name']`, a `KeyError` when absent), then build the
row; `repo["name"]` / `repo["html_url"]` index (raising on absence), the
remaining fields default via `dict.get` — an N/A or 0 default applies only
when the key is absent, a present null value is stored as-is. -/
def grs_create_repo_dataframe (net : Net) (owner : String) :
    List RepoJson → Py (List CRow)
  | [] => pure []
  | repo :: rest => do
      let rn ← dictIndex repo.name "name"
      let readme ← grs_fetch_readme net owner (pyStr rn)
      let url ← dictIndex repo.html_url "html_url"
      let row : CRow := {
        Name := rn
        URL := url
        Description := repo.description.getD (.jstr "N/A")
        Language := repo.language.getD (.jstr "N/A")
        Stars := repo.stargazers_count.getD (.jint 0)
        Forks := repo.forks_count.getD (.jint 0)
        OpenIssues := repo.open_issues_count.getD (.jint 0)
        README := readme }
      let rest' ← grs_create_repo_dataframe net owner rest
      pure (row :: rest')

/-- `summarize_readme(readme_content)` (get_repo_summaries.py lines 81-92,
gen_repo_summaries.py lines 83-94): one completion attempt inside
`try/except Exception`, degrading to an error string. -/
def grs_summarize_readme (net : Net) (readme : String) : Py String :=
  pyTry
    (do
      let r ← mCompletion net
        ("Summarize the following repository README in two marketable sentences:\n\n"
          ++ readme)
      pure (pyStrip r))
    (fun e => pure ("Error generating summary: " ++ pyErrStr e))

/-- `add_summaries_to_dataframe(df)` (get_repo_summaries.py lines 94-97):
`df["README"].apply(summarize_readme)`, one summary per row in order. -/
def grs_add_summaries (net : Net) : List CRow → Py (List (CRow × String))
  | [] => pure []
  | row :: rest => do
      let s ← grs_summarize_readme net row.README
      let rest' ← grs_add_summaries net rest
      pure ((row, s) :: rest')

/-- The per-repository print loop of `main` (get_repo_summaries.py lines
23-24): indexes `repo['name']` and `repo['html_url']`. -/
def grs_print_repos : List RepoJson → Py Unit
  | [] => pure ()
  | repo :: rest => do
      let nm ← dictIndex repo.name "name"
      let u ← dictIndex repo.html_url "html_url"
      emit (.out (.repoLine (pyStr nm) (pyStr u)))
      grs_print_repos rest

/-- `save_dataframe(df, filename)` (get_repo_summaries.py lines 99-105):
write the CSV (write failures are out of scope: the write is modelled as
succeeding) and print the confirmation. -/
def grs_save (filename : String) : Py Unit := do
  emit (.write filename)
  emit (.out (.savedCsv filename))

/-- `main()` of `src/get_repo_summaries.py` (lines 7-38): fetch the list;
a truthy (non-empty) list runs the pipeline and saves the CSV, an empty
list prints a message and falls off the end of `main` — the process exits
with status 0 in both cases.  Returns the saved file name and rows, or
`none` when nothing was saved. -/
def grs_main (net : Net) (orgName : String) :
    Py (Option (String × List (CRow × String))) := do
  let repos ← grs_fetch_repositories net orgName
  if !repos.isEmpty then do
    emit (.out (.foundCount repos.length))
    grs_print_repos repos
    let df ← grs_create_repo_dataframe net orgName repos
    let df2 ← grs_add_summaries net df
    emit (.out .dfHeader)
    emit (.out .dfShown)
    grs_save (orgName ++ "_repo_summaries.csv")
    pure (some (orgName ++ "_repo_summaries.csv", df2))
  else do
    emit (.out .noReposOrError)
    pure none

/-! ## Concrete fixtures used by witnesses and counterexamples -/

/-- An oracle on which every request fails with a transport error (used
where the behavior under test never consults the network, or where total
failure is the point). -/
def failNet : Net := {
  listUnauth := fun _ => .error (.transport "offline")
  listTok := fun _ => .error (.transport "offline")
  listBearer := fun _ => .error (.transport "offline")
  repoTok := fun _ => .error (.transport "offline")
  readmeTok := fun _ => .error (.transport "offline")
  readmeBearer := fun _ => .error (.transport "offline")
  download := fun _ => .error (.transport "offline")
  chat := fun _ => .error (.transport "offline")
  completion := fun _ => .error (.transport "offline") }

/-- Metadata of `acme/widgets`: 6 stars, 0 forks (the stars boundary of the
featured rule). -/
def wRepoW : RepoJson := {
  name := some (.jstr "widgets")
  full_name := some (.jstr "acme/widgets")
  html_url := some (.jstr "https://github.com/acme/widgets")
  description := some (.jstr "A widget library")
  language := some (.jstr "Python")
  stargazers_count := some (.jint 6)
  forks_count := some (.jint 0)
  open_issues_count := some (.jint 1)
  topics := some (.jlist ["tools"]) }

/-- Metadata of `acme/gizmos`: 5 stars, 2 forks (both boundaries of the
featured rule at once). -/
def wRepoG : RepoJson := {
  name := some (.jstr "gizmos")
  full_name := some (.jstr "acme/gizmos")
  html_url := some (.jstr "https://github.com/acme/gizmos")
  description := some (.jstr "A gizmo collection")
  language := some (.jstr "R")
  stargazers_count := some (.jint 5)
  forks_count := some (.jint 2)
  open_issues_count := some (.jint 0)
  topics := some (.jlist []) }

/-- A healthy oracle: both fixture repositories resolve, README metadata
carries an empty download URL (so the README degrades to `""` without a
second request), and the chat endpoint answers. -/
def wNet : Net := {
  listUnauth := fun _ => .error (.transport "offline")
  listTok := fun _ => .error (.transport "offline")
  listBearer := fun _ => .error (.transport "offline")
  repoTok := fun u =>
    if u == repoUrl "acme" "gizmos" then .ok ⟨200, wRepoG⟩
    else if u == repoUrl "acme" "widgets" then .ok ⟨200, wRepoW⟩
    else .error (.transport "no such host")
  readmeTok := fun _ => .ok ⟨200, { download_url := some (.jstr "") }⟩
  readmeBearer := fun _ => .ok ⟨200, { download_url := some (.jstr "") }⟩
  download := fun _ => .error (.transport "offline")
  chat := fun _ => .ok " A concise summary. "
  completion := fun _ => .ok " Two sentences. " }

/-- Environment with both required variables present. -/
def wEnv : Env := { github_token := some "gh-token", openai_api_key := some "oa-key" }

/-- Explicit-list arguments naming the two fixture repositories (gizmos
first, so the stars sort must reorder). -/
def wArgs : Args := {
  org_name := none
  repos := some "acme/gizmos, acme/widgets"
  output_file := "portfolio_summaries.json" }

/-- A listing entry whose `full_name` has no slash: stage 1 returns it,
but `create_repo_dataframe` drops it. -/
def c1Repo : RepoJson := {
  name := some (.jstr "widgets")
  full_name := some (.jstr "widgets")
  html_url := some (.jstr "https://github.com/acme/widgets")
  description := some (.jstr "A widget library")
  language := some (.jstr "Python")
  stargazers_count := some (.jint 6)
  forks_count := some (.jint 0)
  open_issues_count := some (.jint 1)
  topics := some (.jlist []) }

/-- Oracle for the C1 counterexample: the explicit-list request for
`acme/widgets` answers 200 with `c1Repo`; nothing else is reachable. -/
def c1Net : Net := { failNet with
  repoTok := fun u =>
    if u == repoUrl "acme" "widgets" then .ok ⟨200, c1Repo⟩
    else .error (.transport "no such host") }

/-- Arguments selecting only `acme/widgets`. -/
def c1Args : Args := {
  org_name := none
  repos := some "acme/widgets"
  output_file := "portfolio_summaries.json" }

/-- Oracle for the C5 counterexample, explicit-list half: the request for
`acme/widgets` raises a transport error; `acme/gizmos` would answer. -/
def c5Net : Net := { failNet with
  repoTok := fun u =>
    if u == repoUrl "acme" "gizmos" then .ok ⟨200, wRepoG⟩
    else .error (.transport "boom") }

/-- Oracle for the C5 skip witness: `acme/widgets` answers 404,
`acme/gizmos` answers 200. -/
def c5SkipNet : Net := { failNet with
  repoTok := fun u =>
    if u == repoUrl "acme" "gizmos" then .ok ⟨200, wRepoG⟩
    else .ok ⟨404, {}⟩ }

/-- A repository object whose metadata fields are all present but null
(and whose `name`/`html_url` are present, so the CSV row is built). -/
def c10Repo : RepoJson := {
  name := some (.jstr "widgets")
  full_name := some (.jstr "acme/widgets")
  html_url := some (.jstr "https://github.com/acme/widgets")
  description := some .jnull
  language := some .jnull
  stargazers_count := some .jnull
  forks_count := some .jnull
  open_issues_count := some .jnull
  topics := some .jnull }

/-! ## Well-formedness predicates for listing entries -/

/-- The `full_name` field (default `''`) is a string, so that
`'/' not in full` does not raise. -/
def fullNameStrB (r : RepoJson) : Bool :=
  match r.full_name.getD (.jstr "") with
  | .jstr _ => true
  | _ => false

/-- The entry survives the slash filter of `create_repo_dataframe`:
`full_name` is a string containing `'/'`. -/
def slashName (r : RepoJson) : Bool :=
  match r.full_name.getD (.jstr "") with
  | .jstr s =>
      match pySplit1 s with
      | [_, _] => true
      | _ => false
  | _ => false

/-- Entry well-formedness for the portfolio pipeline: `full_name` is a
string and `topics` (default `[]`) is not a number, so neither the slash
test nor `', '.join(topics)` can raise. -/
def repoWF (r : RepoJson) : Bool :=
  fullNameStrB r && joinable (r.topics.getD (.jlist []))

/-! ## Helper lemmas -/

/-! Evaluation rules for the `Py` combinators. -/

@[simp] theorem py_bind_run (x : Py α) (f : α → Py β) (t : List Ev) :
    (x >>= f) t = match x t with
      | (.ok a, t1) => f a t1
      | (.error e, t1) => (.error e, t1) := rfl

@[simp] theorem py_pure_run (a : α) (t : List Ev) :
    (pure a : Py α) t = (.ok a, t) := rfl

@[simp] theorem pyRaise_run (e : PyErr) (t : List Ev) :
    (pyRaise e : Py α) t = (.error e, t) := rfl

@[simp] theorem emit_run (ev : Ev) (t : List Ev) :
    emit ev t = (.ok (), t ++ [ev]) := rfl

@[simp] theorem pyTry_run (x : Py α) (h : PyErr → Py α) (t : List Ev) :
    pyTry x h t = match x t with
      | (.ok a, t1) => (.ok a, t1)
      | (.error e, t1) => h e t1 := rfl

@[simp] theorem pyTryOn_run (p : PyErr → Bool) (x : Py α) (h : PyErr → Py α)
    (t : List Ev) :
    pyTryOn p x h t = match x t with
      | (.ok a, t1) => (.ok a, t1)
      | (.error e, t1) => if p e then h e t1 else (.error e, t1) := rfl

@[simp] theorem mGet_run (u : String) (r : Except PyErr α) (t : List Ev) :
    mGet u r t = (r, t ++ [.http (.get u)]) := rfl

@[simp] theorem mChat_run (net : Net) (p : String) (t : List Ev) :
    mChat net p t = (net.chat p, t ++ [.http .chat]) := rfl

@[simp] theorem mCompletion_run (net : Net) (p : String) (t : List Ev) :
    mCompletion net p t = (net.completion p, t ++ [.http .completion]) := rfl

@[simp] theorem dictIndex_some (x : JVal) (k : String) (t : List Ev) :
    dictIndex (some x) k t = (.ok x, t) := rfl

@[simp] theorem dictIndex_none (k : String) (t : List Ev) :
    dictIndex none k t = (.error (.keyError k), t) := rfl

@[simp] theorem pyGtInt_jint (m n : Int) (t : List Ev) :
    pyGtInt (.jint m) n t = (.ok (n < m), t) := rfl


theorem build_context_ok (nm : String) (lang desc topics : JVal)
    (hj : joinable topics = true) (t : List Ev) :
    ∃ ctx, build_context nm lang desc topics t = (.ok ctx, t) := by
  unfold build_context
  cases topics with
  | jnull => exact ⟨_, rfl⟩
  | jstr s => by_cases h : pyTruthy (.jstr s) <;> simp [h, pyJoin]
  | jint n => simp [joinable] at hj
  | jlist xs => by_cases h : pyTruthy (.jlist xs) <;> simp [h, pyJoin]

theorem summarize_readme_ok (net : Net) (content nm : String)
    (lang desc topics : JVal) (hj : joinable topics = true) (t : List Ev) :
    ∃ s t1, summarize_readme net content nm lang desc topics t = (.ok s, t1) := by
  unfold summarize_readme
  by_cases h0 : (content == "" && pyTruthy desc == false) = true
  · rw [if_pos h0]
    exact ⟨"", t, rfl⟩
  · rw [if_neg h0]
    obtain ⟨ctx, hctx⟩ := build_context_ok nm lang desc topics hj t
    simp only [py_bind_run, hctx, pyTry_run, mChat_run]
    cases hc : net.chat (build_prompt ctx content) with
    | ok s => exact ⟨_, _, rfl⟩
    | error e =>
        by_cases hd : pyTruthy desc = true <;> simp [hd]

theorem pyTry_fetch_ok (net : Net) (org nm : String) (t : List Ev) :
    ∃ v t1, pyTry (fetch_readme net org nm) (fun _ => pure "") t = (.ok v, t1) := by
  simp only [pyTry_run]
  rcases hf : fetch_readme net org nm t with ⟨res, t1⟩
  cases res with
  | ok v => exact ⟨v, t1, rfl⟩
  | error e => exact ⟨"", t1, rfl⟩

theorem pyTry_fetch_fail (net : Net)
    (hfail : ∀ u, ∃ e, net.readmeTok u = .error e) (org nm : String)
    (t : List Ev) :
    pyTry (fetch_readme net org nm) (fun _ => pure "") t
      = (.ok "", t ++ [.http (.get (readmeUrl org nm))]) := by
  obtain ⟨e, he⟩ := hfail (readmeUrl org nm)
  unfold fetch_readme
  simp only [pyTry_run, py_bind_run, mGet_run, he, py_pure_run]

theorem create_df_ok (net : Net) (P : String → Prop)
    (hfetch : ∀ org nm t, ∃ v t1,
      pyTry (fetch_readme net org nm) (fun _ => pure "") t = (.ok v, t1) ∧ P v) :
    ∀ repos t, (∀ r ∈ repos, repoWF r = true) →
    ∃ rows t2, create_repo_dataframe net repos t = (.ok rows, t2)
      ∧ rows.length = repos.countP slashName
      ∧ ∀ row ∈ rows, joinable row.Topics = true ∧ P row.README := by
  intro repos
  induction repos with
  | nil =>
      intro t _
      exact ⟨[], t, rfl, by simp, by simp⟩
  | cons r rest ih =>
      intro t hwf
      have hr := hwf r (List.mem_cons_self r rest)
      have hrest : ∀ x ∈ rest, repoWF x = true :=
        fun x hx => hwf x (List.mem_cons_of_mem r hx)
      rw [repoWF, Bool.and_eq_true] at hr
      simp only [create_repo_dataframe]
      cases hfull : r.full_name.getD (.jstr "") with
      | jnull => rw [fullNameStrB, hfull] at hr; exact absurd hr.1 (by simp)
      | jint n => rw [fullNameStrB, hfull] at hr; exact absurd hr.1 (by simp)
      | jlist xs => rw [fullNameStrB, hfull] at hr; exact absurd hr.1 (by simp)
      | jstr full =>
          rcases hsp : pySplit1 full with _ | ⟨a, _ | ⟨b, _ | ⟨c, tl⟩⟩⟩ <;>
            simp only [hsp]
          · obtain ⟨rows, t2, hrec, hlen, hall⟩ := ih t hrest
            refine ⟨rows, t2, hrec, ?_, hall⟩
            rw [List.countP_cons, hlen]
            simp [slashName, hfull, hsp]
          · obtain ⟨rows, t2, hrec, hlen, hall⟩ := ih t hrest
            refine ⟨rows, t2, hrec, ?_, hall⟩
            rw [List.countP_cons, hlen]
            simp [slashName, hfull, hsp]
          · obtain ⟨v, t1, hfe, hPv⟩ := hfetch a b t
            simp only [py_bind_run, hfe]
            obtain ⟨rows, t2, hrec, hlen, hall⟩ := ih t1 hrest
            rw [hrec]
            refine ⟨_, t2, rfl, ?_, ?_⟩
            · simp [List.countP_cons, List.length_cons, slashName, hfull, hsp, hlen]
            · intro row hrow
              rcases List.mem_cons.mp hrow with hhead | htail
              · subst hhead
                exact ⟨hr.2, hPv⟩
              · exact hall row htail
          · obtain ⟨rows, t2, hrec, hlen, hall⟩ := ih t hrest
            refine ⟨rows, t2, hrec, ?_, hall⟩
            rw [List.countP_cons, hlen]
            simp [slashName, hfull, hsp]

theorem add_summaries_ok (net : Net) :
    ∀ rows t, (∀ row ∈ rows, joinable row.Topics = true) →
    ∃ out t1, add_summaries net rows t = (.ok out, t1)
      ∧ out.map Prod.fst = rows := by
  intro rows
  induction rows with
  | nil => intro t _; exact ⟨[], t, rfl, rfl⟩
  | cons row rest ih =>
      intro t hj
      obtain ⟨s, t1, hs⟩ := summarize_readme_ok net row.README row.Name
        row.Language row.Description row.Topics
        (hj row (List.mem_cons_self row rest)) t
      simp only [add_summaries, py_bind_run, hs, emit_run]
      obtain ⟨out, t2, hrec, hmap⟩ := ih (t1 ++ [.out (.generatedFor row.Name)])
        (fun x hx => hj x (List.mem_cons_of_mem row hx))
      rw [hrec]
      exact ⟨(row, s) :: out, t2, rfl, by simp [hmap]⟩

/-- The portfolio DataFrame stage (`create_repo_dataframe` then
`add_summaries`) never fails on well-formed entries, whatever the network
does, and yields exactly one summarized row per slash-named entry; the
parameter `P` transports a per-README invariant. -/
theorem df_stage_ok (net : Net) (P : String → Prop)
    (hfetch : ∀ org nm t, ∃ v t1,
      pyTry (fetch_readme net org nm) (fun _ => pure "") t = (.ok v, t1) ∧ P v)
    (repos : List RepoJson) (t : List Ev)
    (hwf : ∀ r ∈ repos, repoWF r = true) :
    ∃ out t2, (create_repo_dataframe net repos >>= add_summaries net) t
        = (.ok out, t2)
      ∧ out.length = repos.countP slashName
      ∧ ∀ rs ∈ out, P rs.1.README := by
  obtain ⟨rows, t1, hdf, hlen, hall⟩ := create_df_ok net P hfetch repos t hwf
  obtain ⟨out, t2, hsum, hmap⟩ := add_summaries_ok net rows t1
    (fun row hrow => (hall row hrow).1)
  refine ⟨out, t2, ?_, ?_, ?_⟩
  · simp only [py_bind_run, hdf, hsum]
  · have : out.length = rows.length := by
      rw [← hmap, List.length_map]
    rw [this, hlen]
  · intro rs hrs
    have : rs.1 ∈ rows := by
      rw [← hmap]
      exact List.mem_map_of_mem Prod.fst hrs
    exact (hall rs.1 this).2

theorem build_records_featured :
    ∀ rows t recs t1, build_records rows t = (.ok recs, t1) →
    ∀ r ∈ recs,
      (r.featured = true ↔ (5 < r.stars ∨ ∃ f, r.forks = .jint f ∧ 2 < f)) := by
  intro rows
  induction rows with
  | nil =>
      intro t recs t1 h r hr
      simp only [build_records, py_pure_run, Prod.mk.injEq] at h
      obtain ⟨h1, _⟩ := h
      cases h1
      cases hr
  | cons rs rest ih =>
      rcases rs with ⟨row, summ⟩
      intro t recs t1 h r hr
      simp only [build_records] at h
      cases hstars : row.Stars with
      | jnull => rw [hstars] at h; simp at h
      | jstr s => rw [hstars] at h; simp at h
      | jlist xs => rw [hstars] at h; simp at h
      | jint s =>
          rw [hstars] at h
          simp only [py_bind_run] at h
          by_cases h5 : 5 < s
          · rw [if_pos h5] at h
            simp only [py_bind_run, py_pure_run] at h
            rcases hrec : build_records rest t with ⟨res, t2⟩
            rw [hrec] at h
            cases res with
            | error e => simp at h
            | ok recs0 =>
                simp only [py_pure_run, Prod.mk.injEq, Except.ok.injEq] at h
                obtain ⟨h1, _⟩ := h
                subst h1
                rcases List.mem_cons.mp hr with hhead | htail
                · subst hhead
                  simpa using Or.inl h5
                · exact ih t recs0 t2 hrec r htail
          · rw [if_neg h5] at h
            cases hforks : row.Forks with
            | jnull => rw [hforks] at h; simp [pyGtInt] at h
            | jstr s2 => rw [hforks] at h; simp [pyGtInt] at h
            | jlist xs => rw [hforks] at h; simp [pyGtInt] at h
            | jint f =>
                rw [hforks] at h
                simp only [py_bind_run, pyGtInt_jint, py_pure_run] at h
                rcases hrec : build_records rest t with ⟨res, t2⟩
                rw [hrec] at h
                cases res with
                | error e => simp at h
                | ok recs0 =>
                    simp only [py_pure_run, Prod.mk.injEq, Except.ok.injEq] at h
                    obtain ⟨h1, _⟩ := h
                    subst h1
                    rcases List.mem_cons.mp hr with hhead | htail
                    · subst hhead
                      simp only [decide_eq_true_eq]
                      constructor
                      · intro h2
                        exact Or.inr ⟨f, rfl, h2⟩
                      · rintro (h2 | ⟨f2, hf2, h2⟩)
                        · exact absurd h2 h5
                        · cases hf2
                          exact h2
                    · exact ih t recs0 t2 hrec r htail

theorem scripts_pipeline_ok_inv {net : Net} {outFile : String}
    {repos : List RepoJson} {t : List Ev} {recs : List PortRec} {t4 : List Ev}
    (h : scripts_pipeline net outFile repos t = (.ok recs, t4)) :
    ∃ rows t2 recs0 t3, build_records rows t2 = (.ok recs0, t3)
      ∧ recs = List.insertionSort recGE recs0 := by
  unfold scripts_pipeline at h
  simp only [py_bind_run, emit_run] at h
  split at h
  · split at h
    · split at h
      · rename_i recs0 tc h3
        refine ⟨_, _, recs0, tc, h3, ?_⟩
        have := congrArg Prod.fst h
        simpa using this.symm
      · rename_i heq
        simp at h
    · rename_i heq
      simp at h
  · rename_i heq
    simp at h

theorem scripts_main_ok_inv {net : Net} {env : Env} {args : Args}
    {t : List Ev} {recs : List PortRec} {t3 : List Ev}
    (h : scripts_main net env args t = (.ok recs, t3)) :
    ∃ repos t2, scripts_pipeline net args.output_file repos t2
      = (.ok recs, t3) := by
  unfold scripts_main at h
  by_cases hc : (pyTruthyOpt env.github_token == false
      || pyTruthyOpt env.openai_api_key == false) = true
  · rw [if_pos hc] at h
    simp at h
  · rw [if_neg hc] at h
    simp only [py_bind_run, emit_run] at h
    by_cases hm : pyTruthyOpt args.repos = true
    · rw [if_pos hm] at h
      simp only [py_bind_run, emit_run] at h
      split at h
      · rename_i repos t1 h1
        by_cases he : repos.isEmpty = true
        · rw [if_pos he] at h
          simp at h
        · rw [if_neg he] at h
          exact ⟨repos, t1, h⟩
      · rename_i heq
        simp at h
    · rw [if_neg hm] at h
      simp only [py_bind_run, emit_run] at h
      split at h
      · rename_i repos t1 h1
        by_cases he : repos.isEmpty = true
        · rw [if_pos he] at h
          simp at h
        · rw [if_neg he] at h
          exact ⟨repos, t1, h⟩
      · rename_i heq
        simp at h

/-! ## Claim theorems -/

/-- C6: for every input where both the README content and the repository
description are empty, `summarize_readme` (portfolio variant) returns the
empty string and issues zero calls to the remote summarization endpoint
(the event trace is unchanged, so in particular no chat call is added). -/
theorem c6_empty_inputs_no_call (net : Net) (nm : String) (lang topics : JVal)
    (t : List Ev) :
    summarize_readme net "" nm lang (.jstr "") topics t = (.ok "", t)
      ∧ chatCalls (summarize_readme net "" nm lang (.jstr "") topics t).2
          = chatCalls t := ⟨rfl, rfl⟩

/-- C9: in the portfolio variant, when the README metadata response is a
success carrying no usable download URL (`data.get('download_url')` is
falsy, in particular when the key is absent), `fetch_readme` returns the
empty string after the single metadata request — the second
(content-download) HTTP fetch is never performed. -/
theorem c9_no_download_url_skips_fetch (net : Net) (org repo : String)
    (t : List Ev) (resp : RespM)
    (hnet : net.readmeTok (readmeUrl org repo) = .ok resp)
    (hst : resp.status < 400)
    (hdu : pyTruthy (resp.meta.download_url.getD .jnull) = false) :
    fetch_readme net org repo t
      = (.ok "", t ++ [.http (.get (readmeUrl org repo))]) := by
  unfold fetch_readme raiseForStatus
  have hnle : ¬ 400 ≤ resp.status := Nat.not_le.mpr hst
  simp [py_bind_run, mGet_run, hnet, hnle, hdu]

/-- Oracle for the C9 witness: README metadata succeeds with no
`download_url` key. -/
def c9Net : Net := { failNet with
  readmeTok := fun _ => .ok ⟨200, { download_url := none }⟩ }

/-- Witness for C9 at a concrete repository. -/
theorem c9_witness :
    fetch_readme c9Net "acme" "widgets" []
      = (.ok "", [.http (.get (readmeUrl "acme" "widgets"))]) :=
  c9_no_download_url_skips_fetch c9Net "acme" "widgets" []
    ⟨200, { download_url := none }⟩ rfl (by decide) rfl

/-- C7: in the environment-variable variant (`src/scripts`), if either
required environment variable is absent, `main` raises `SystemExit 1`
after printing the diagnostic to stderr; the exit status is 1 and no
network call is issued (the trace gains only the diagnostic line). -/
theorem c7_missing_env_exits_one (net : Net) (env : Env) (args : Args)
    (t : List Ev)
    (h : env.github_token = none ∨ env.openai_api_key = none) :
    scripts_main net env args t
        = (.error (.systemExit 1), t ++ [.err .envMissing])
      ∧ exitCode (scripts_main net env args t).1 = 1
      ∧ netCalls (scripts_main net env args t).2 = netCalls t := by
  have hcond : (pyTruthyOpt env.github_token == false
      || pyTruthyOpt env.openai_api_key == false) = true := by
    rcases h with h | h <;> simp [h, pyTruthyOpt]
  have hmain : scripts_main net env args t
      = (.error (.systemExit 1), t ++ [.err .envMissing]) := by
    unfold scripts_main
    rw [if_pos hcond]
    simp
  refine ⟨hmain, ?_, ?_⟩
  · rw [hmain]
    rfl
  · rw [hmain]
    simp [netCalls]

/-- Witness for C7: `GITHUB_TOKEN` unset. -/
theorem c7_witness :
    scripts_main failNet { github_token := none, openai_api_key := some "k" }
        {} [] = (.error (.systemExit 1), [.err .envMissing])
      ∧ exitCode (scripts_main failNet
          { github_token := none, openai_api_key := some "k" } {} []).1 = 1
      ∧ netCalls (scripts_main failNet
          { github_token := none, openai_api_key := some "k" } {} []).2
          = netCalls [] :=
  c7_missing_env_exits_one failNet
    { github_token := none, openai_api_key := some "k" } {} [] (Or.inl rfl)

/-- C8: in the portfolio variant, when the chat-completion endpoint fails,
`summarize_readme` makes exactly one attempt (exactly one chat event is
added to the trace, no retry) and returns the fallback: the templated
sentence built from description and language when the description is
truthy, otherwise the explicit error marker. -/
theorem c8_failure_fallback_single_attempt (net : Net) (content nm : String)
    (lang desc topics : JVal) (t : List Ev) (e : PyErr)
    (hfail : ∀ p, net.chat p = .error e)
    (hreach : (content == "" && pyTruthy desc == false) = false)
    (hj : joinable topics = true) :
    summarize_readme net content nm lang desc topics t
        = (.ok (if pyTruthy desc = true then fallback_sentence desc lang
                else error_marker e),
           t ++ [.http .chat])
      ∧ chatCalls (t ++ [.http .chat]) = chatCalls t + 1 := by
  obtain ⟨ctx, hctx⟩ := build_context_ok nm lang desc topics hj t
  constructor
  · unfold summarize_readme
    rw [if_neg (by rw [hreach]; simp)]
    simp only [py_bind_run, hctx, pyTry_run, mChat_run, hfail]
    by_cases hd : pyTruthy desc = true
    · simp [hd]
    · simp [hd]
  · simp [chatCalls]

/-- Oracle for the C8 witness: the chat endpoint always raises. -/
def c8Net : Net := { failNet with chat := fun _ => .error (.apiError "boom") }

/-- Witness for C8 at a concrete repository with a truthy description. -/
theorem c8_witness :
    summarize_readme c8Net "Readme text" "widgets" JVal.jnull
        (JVal.jstr "A lib") (JVal.jlist []) []
        = (.ok (if pyTruthy (JVal.jstr "A lib") = true
                then fallback_sentence (JVal.jstr "A lib") JVal.jnull
                else error_marker (.apiError "boom")),
           [.http .chat])
      ∧ chatCalls [Ev.http Call.chat] = chatCalls [] + 1 :=
  c8_failure_fallback_single_attempt c8Net "Readme text" "widgets" JVal.jnull
    (JVal.jstr "A lib") (JVal.jlist []) [] (.apiError "boom")
    (fun _ => rfl) (by decide) rfl

/-- C2: in the JSON (portfolio) variant, every record in the written
output has `featured = true` exactly when `stars > 5` or `forks > 2`
(`forks` is only inspected — and hence only known to be a number — when
`stars <= 5`, mirroring Python's short-circuit `or`). -/
theorem c2_featured_iff (net : Net) (env : Env) (args : Args) (t : List Ev)
    (recs : List PortRec) (t1 : List Ev) (r : PortRec)
    (hrun : scripts_main net env args t = (.ok recs, t1)) (hr : r ∈ recs) :
    (r.featured = true ↔ (5 < r.stars ∨ ∃ f, r.forks = .jint f ∧ 2 < f)) := by
  obtain ⟨repos, t2, hpipe⟩ := scripts_main_ok_inv hrun
  obtain ⟨rows, ta, recs0, tb, hbr, hsorted⟩ := scripts_pipeline_ok_inv hpipe
  subst hsorted
  have hr0 : r ∈ recs0 := (List.mem_insertionSort recGE).mp hr
  exact build_records_featured rows ta recs0 tb hbr r hr0

/-- C3: in the JSON (portfolio) variant, the written array of records is
sorted by `stars` in descending order: adjacent records satisfy
`records[i].stars >= records[i+1].stars`. -/
theorem c3_sorted_by_stars_desc (net : Net) (env : Env) (args : Args)
    (t : List Ev) (recs : List PortRec) (t1 : List Ev)
    (hrun : scripts_main net env args t = (.ok recs, t1)) :
    List.Chain' (fun a b : PortRec => b.stars ≤ a.stars) recs := by
  obtain ⟨repos, t2, hpipe⟩ := scripts_main_ok_inv hrun
  obtain ⟨rows, ta, recs0, tb, hbr, hsorted⟩ := scripts_pipeline_ok_inv hpipe
  subst hsorted
  exact (List.sorted_insertionSort recGE recs0).chain'

/-- The record for `acme/widgets` produced by the fixture run (6 stars:
featured by the stars boundary). -/
def wRecW : PortRec := {
  name := "widgets"
  fullName := "acme/widgets"
  url := .jstr "https://github.com/acme/widgets"
  description := .jstr "A widget library"
  language := .jstr "Python"
  stars := 6
  forks := .jint 0
  openIssues := .jint 1
  topics := .jlist ["tools"]
  summary := "A concise summary."
  featured := true }

/-- The record for `acme/gizmos` produced by the fixture run (5 stars and
2 forks: not featured, both thresholds met exactly). -/
def wRecG : PortRec := {
  name := "gizmos"
  fullName := "acme/gizmos"
  url := .jstr "https://github.com/acme/gizmos"
  description := .jstr "A gizmo collection"
  language := .jstr "R"
  stars := 5
  forks := .jint 2
  openIssues := .jint 0
  topics := .jlist []
  summary := "A concise summary."
  featured := false }

/-- The event trace of the fixture run. -/
def wTrace : List Ev := [
  .out (.fetchingSpecific ["acme/gizmos", "acme/widgets"]),
  .http (.get "https://api.github.com/repos/acme/gizmos"),
  .http (.get "https://api.github.com/repos/acme/widgets"),
  .out (.buildingCount 2),
  .http (.get "https://api.github.com/repos/acme/gizmos/readme"),
  .http (.get "https://api.github.com/repos/acme/widgets/readme"),
  .http .chat,
  .out (.generatedFor "gizmos"),
  .http .chat,
  .out (.generatedFor "widgets"),
  .write "portfolio_summaries.json",
  .out (.savedTo "portfolio_summaries.json"),
  .out (.generatedCount 2),
  .out (.featuredCount 1)]

/-- Witness for C2 at the fixture run, checking both boundary records
(stars 6 / forks 0 and stars 5 / forks 2). -/
theorem c2_witness :
    (wRecW.featured = true ↔ (5 < wRecW.stars ∨ ∃ f, wRecW.forks = .jint f ∧ 2 < f))
    ∧ (wRecG.featured = true ↔ (5 < wRecG.stars ∨ ∃ f, wRecG.forks = .jint f ∧ 2 < f)) :=
  ⟨c2_featured_iff wNet wEnv wArgs [] [wRecW, wRecG] wTrace wRecW (by rfl)
      (List.mem_cons_self _ _),
   c2_featured_iff wNet wEnv wArgs [] [wRecW, wRecG] wTrace wRecG (by rfl)
      (List.mem_cons_of_mem _ (List.mem_cons_self _ _))⟩

/-- Witness for C3 at the fixture run (input order gizmos-then-widgets is
re-sorted to widgets-then-gizmos). -/
theorem c3_witness :
    List.Chain' (fun a b : PortRec => b.stars ≤ a.stars) [wRecW, wRecG] :=
  c3_sorted_by_stars_desc wNet wEnv wArgs [] [wRecW, wRecG] wTrace (by rfl)

/-- C1 counterexample: the explicit-list stage 1 successfully returns one
repository (whose `full_name` has no slash), yet the pipeline writes zero
records — refuting "exactly N records, one per listed repository". -/
theorem c1_counterexample :
    fetch_specific_repos c1Net ["acme/widgets"] []
        = (.ok [c1Repo], [.http (.get (repoUrl "acme" "widgets"))])
      ∧ (scripts_main c1Net wEnv c1Args []).1 = .ok [] := by
  constructor
  · rfl
  · rfl

/-- C1 as amended: the portfolio DataFrame stage (README fetch plus
summarization) never drops or duplicates entries among those whose
`full_name` is a string containing a slash; entries without a slash are
skipped.  Hence the record count equals the number of slash-named listed
repositories (so N exactly when every listed `full_name` is well-formed),
regardless of the network oracle (in particular of any README-fetch or
summarization failures). -/
theorem c1_record_count (net : Net) (repos : List RepoJson) (t : List Ev)
    (hwf : ∀ r ∈ repos, repoWF r = true) :
    ∃ out t1, (create_repo_dataframe net repos >>= add_summaries net) t
        = (.ok out, t1)
      ∧ out.length = repos.countP slashName := by
  obtain ⟨out, t1, heq, hlen, _⟩ := df_stage_ok net (fun _ => True)
    (fun org nm t0 => by
      obtain ⟨v, tv, hv⟩ := pyTry_fetch_ok net org nm t0
      exact ⟨v, tv, hv, trivial⟩) repos t hwf
  exact ⟨out, t1, heq, hlen⟩

/-- Witness for the amended C1 at the two fixture repositories on a
fully-failing network: both records survive. -/
theorem c1_witness :
    ∃ out t1, (create_repo_dataframe failNet [wRepoW, wRepoG]
        >>= add_summaries failNet) [] = (.ok out, t1)
      ∧ out.length = List.countP slashName [wRepoW, wRepoG] :=
  c1_record_count failNet [wRepoW, wRepoG] [] (by decide)

/-- C4: README-fetch failures are absorbed.  First conjunct (portfolio
variant): on any oracle whose README-metadata endpoint always raises, the
DataFrame stage still succeeds, keeps one record per slash-named
repository, and every record's README degrades to `""` (its summary field
is a `String` of the model, hence never null).  Second conjunct (CSV
variants): a `RequestException` raised during the metadata request makes
`fetch_readme` return the formatted error string after that one request,
rather than propagating.  Third conjunct (CSV variants): a
`RequestException` raised during the content-download request likewise
degrades to the formatted error string after the two requests. -/
theorem c4_soft_failure :
    (∀ (net : Net) (repos : List RepoJson) (t : List Ev),
      (∀ r ∈ repos, repoWF r = true) →
      (∀ u, ∃ e, net.readmeTok u = .error e) →
      ∃ out t1, (create_repo_dataframe net repos >>= add_summaries net) t
          = (.ok out, t1)
        ∧ out.length = repos.countP slashName
        ∧ ∀ rs ∈ out, rs.1.README = "")
    ∧ (∀ (net : Net) (owner rn : String) (t : List Ev) (e : PyErr),
        isRequestException e = true →
        net.readmeBearer (readmeUrl owner rn) = .error e →
        grs_fetch_readme net owner rn t
          = (.ok ("Error fetching README: " ++ pyErrStr e),
             t ++ [.http (.get (readmeUrl owner rn))]))
    ∧ (∀ (net : Net) (owner rn : String) (t : List Ev) (resp : RespM)
        (u : String) (e : PyErr),
        net.readmeBearer (readmeUrl owner rn) = .ok resp →
        resp.status < 400 →
        resp.meta.download_url = some (.jstr u) →
        net.download u = .error e →
        isRequestException e = true →
        grs_fetch_readme net owner rn t
          = (.ok ("Error fetching README: " ++ pyErrStr e),
             t ++ [.http (.get (readmeUrl owner rn)), .http (.get u)])) := by
  refine ⟨?_, ?_, ?_⟩
  · intro net repos t hwf hfail
    exact df_stage_ok net (fun v => v = "")
      (fun org nm t0 => ⟨"", _, pyTry_fetch_fail net hfail org nm t0, rfl⟩)
      repos t hwf
  · intro net owner rn t e hreq hnet
    unfold grs_fetch_readme
    simp only [pyTryOn_run, py_bind_run, mGet_run, hnet, hreq, if_true,
      py_pure_run]
  · intro net owner rn t resp u e hnet hst hdu hde hreq
    have hnle : ¬ 400 ≤ resp.status := Nat.not_le.mpr hst
    unfold grs_fetch_readme raiseForStatus
    simp [pyTryOn_run, py_bind_run, mGet_run, hnet, hnle, hdu, mDownload,
      hde, hreq, List.append_assoc]

/-- Oracle for the C4 download-failure witness: the README metadata
answers with a download URL, the download itself raises. -/
def c4DlNet : Net := { failNet with
  readmeBearer := fun _ =>
    .ok ⟨200, { download_url := some (.jstr "https://raw.test/readme.md") }⟩ }

/-- Witness for C4: concrete failing oracles, all three conjuncts. -/
theorem c4_witness :
    (∃ out t1, (create_repo_dataframe failNet [wRepoW]
        >>= add_summaries failNet) [] = (.ok out, t1)
      ∧ out.length = List.countP slashName [wRepoW]
      ∧ ∀ rs ∈ out, rs.1.README = "")
    ∧ grs_fetch_readme failNet "acme" "widgets" []
        = (.ok ("Error fetching README: " ++ pyErrStr (.transport "offline")),
           [.http (.get (readmeUrl "acme" "widgets"))])
    ∧ grs_fetch_readme c4DlNet "acme" "widgets" []
        = (.ok ("Error fetching README: " ++ pyErrStr (.transport "offline")),
           [.http (.get (readmeUrl "acme" "widgets")),
            .http (.get "https://raw.test/readme.md")]) :=
  ⟨c4_soft_failure.1 failNet [wRepoW] [] (by decide)
      (fun _ => ⟨.transport "offline", rfl⟩),
   c4_soft_failure.2.1 failNet "acme" "widgets" [] (.transport "offline")
      rfl rfl,
   c4_soft_failure.2.2 c4DlNet "acme" "widgets" []
      ⟨200, { download_url := some (.jstr "https://raw.test/readme.md") }⟩
      "https://raw.test/readme.md" (.transport "offline")
      rfl (by decide) rfl rfl rfl⟩

/-- C5 counterexample.  First conjunct: in the CSV variant, a transport
failure on the listing call makes `main` finish normally after printing
"No repositories found or an error occurred." — the exit status is 0, not
non-zero.  Second conjunct: in explicit-list mode, a transport exception
on the first entry aborts `fetch_specific_repos` entirely — the second
entry is never fetched (the trace holds only the first request), refuting
"only that entry is skipped". -/
theorem c5_counterexample :
    exitCode (grs_main failNet "acme" []).1 = 0
      ∧ fetch_specific_repos c5Net ["acme/widgets", "acme/gizmos"] []
          = (.error (.transport "boom"),
             [.http (.get (repoUrl "acme" "widgets"))]) := by
  constructor
  · rfl
  · rfl

/-- C5 as amended.  (1) CSV variant, transport failure on the listing
call: the lister reports the error and returns `[]`, and `main` then
prints the no-repositories message and finishes with exit status 0.
(2) The same for a 4xx/5xx response (`raise_for_status` inside the
`try`).  (3) Explicit-list mode: a non-2xx response on one entry causes
only that entry to be skipped, with a warning on stderr, and the
remaining entries are still processed; a transport exception instead
propagates (see the counterexample). -/
theorem c5_listing_failure_behavior :
    (∀ (net : Net) (org : String) (t : List Ev) (e : PyErr),
      isRequestException e = true →
      net.listBearer (orgReposUrl org) = .error e →
      grs_fetch_repositories net org t
          = (.ok [], t ++ [.http (.get (orgReposUrl org)),
              .out (.errorFetchingRepos (pyErrStr e))])
        ∧ grs_main net org t
          = (.ok none, t ++ [.http (.get (orgReposUrl org)),
              .out (.errorFetchingRepos (pyErrStr e)), .out .noReposOrError])
        ∧ exitCode (grs_main net org t).1 = 0)
    ∧ (∀ (net : Net) (org : String) (t : List Ev) (resp : RespL),
        net.listBearer (orgReposUrl org) = .ok resp →
        400 ≤ resp.status → resp.status < 600 →
        grs_fetch_repositories net org t
          = (.ok [], t ++ [.http (.get (orgReposUrl org)),
              .out (.errorFetchingRepos (pyErrStr (.httpError resp.status)))]))
    ∧ (∀ (net : Net) (full a b : String) (rest : List String) (t : List Ev)
        (resp : RespR),
        pySplit1 full = [a, b] →
        net.repoTok (repoUrl a b) = .ok resp →
        (resp.status == 200) = false →
        fetch_specific_repos net (full :: rest) t
          = fetch_specific_repos net rest
              (t ++ [.http (.get (repoUrl a b)),
                .err (.couldNotFetch full resp.status)])) := by
  refine ⟨?_, ?_, ?_⟩
  · intro net org t e hreq hnet
    have hfetch : grs_fetch_repositories net org t
        = (.ok [], t ++ [.http (.get (orgReposUrl org)),
            .out (.errorFetchingRepos (pyErrStr e))]) := by
      unfold grs_fetch_repositories
      simp [pyTryOn_run, py_bind_run, mGet_run, hnet, hreq]
    have hmain : grs_main net org t
        = (.ok none, t ++ [.http (.get (orgReposUrl org)),
            .out (.errorFetchingRepos (pyErrStr e)), .out .noReposOrError]) := by
      unfold grs_main
      simp [py_bind_run, hfetch, emit_run, List.append_assoc]
    refine ⟨hfetch, hmain, ?_⟩
    rw [hmain]
    rfl
  · intro net org t resp hnet h4 h6
    unfold grs_fetch_repositories raiseForStatus
    have hreq : isRequestException (.httpError resp.status) = true := rfl
    simp [pyTryOn_run, py_bind_run, mGet_run, hnet, h4, h6, hreq]
  · intro net full a b rest t resp hsp hnet hst
    have hne : resp.status ≠ 200 := by simpa using hst
    simp only [fetch_specific_repos, hsp]
    simp [py_bind_run, mGet_run, hnet, hne, emit_run, List.append_assoc]

/-- Witness for the amended C5: the transport conjunct at a concrete
organization on the failing oracle, and the skip conjunct at a concrete
404 entry followed by a 200 entry. -/
theorem c5_witness :
    (grs_fetch_repositories failNet "acme" []
        = (.ok [], [.http (.get (orgReposUrl "acme")),
            .out (.errorFetchingRepos "offline")])
      ∧ grs_main failNet "acme" []
        = (.ok none, [.http (.get (orgReposUrl "acme")),
            .out (.errorFetchingRepos "offline"), .out .noReposOrError])
      ∧ exitCode (grs_main failNet "acme" []).1 = 0)
    ∧ fetch_specific_repos c5SkipNet ["acme/widgets", "acme/gizmos"] []
        = fetch_specific_repos c5SkipNet ["acme/gizmos"]
            [.http (.get (repoUrl "acme" "widgets")),
             .err (.couldNotFetch "acme/widgets" 404)] :=
  ⟨c5_listing_failure_behavior.1 failNet "acme" [] (.transport "offline")
      rfl rfl,
   c5_listing_failure_behavior.2.2 c5SkipNet "acme/widgets" "acme" "widgets"
      ["acme/gizmos"] [] ⟨404, {}⟩ rfl rfl rfl⟩

/-- The row the CSV variant builds for `c10Repo` on the failing oracle:
every present-but-null field stays null instead of receiving its
default. -/
def c10Row : CRow := {
  Name := .jstr "widgets"
  URL := .jstr "https://github.com/acme/widgets"
  Description := .jnull
  Language := .jnull
  Stars := .jnull
  Forks := .jnull
  OpenIssues := .jnull
  README := "Error fetching README: offline" }

/-- C10 counterexample: a repository whose metadata fields are present but
null produces a row whose `Description` (and the other fields) is null,
not the claimed `"N/A"` / `0` defaults — `dict.get(key, default)` only
substitutes when the key is absent. -/
theorem c10_counterexample :
    grs_create_repo_dataframe failNet "acme" [c10Repo] []
        = (.ok [c10Row], [.http (.get (readmeUrl "acme" "widgets"))])
      ∧ c10Repo.description = some .jnull
      ∧ c10Row.Description = .jnull
      ∧ JVal.jnull ≠ JVal.jstr "N/A"
      ∧ c10Row.Stars = .jnull
      ∧ JVal.jnull ≠ JVal.jint 0 := by
  refine ⟨rfl, rfl, rfl, ?_, rfl, ?_⟩
  · decide
  · decide

/-- C10 as amended: in the CSV variants, every record built takes its
`Description`/`Language` from the repository object with default `"N/A"`
and its counts with default `0`, where the default applies exactly when
the key is absent — a key present with a null value is stored as null,
not replaced. -/
theorem c10_missing_key_defaults (net : Net) (owner : String)
    (repo : RepoJson) (rest : List RepoJson) (t : List Ev)
    (rows : List CRow) (t1 : List Ev)
    (h : grs_create_repo_dataframe net owner (repo :: rest) t
      = (.ok rows, t1)) :
    ∃ row rows2, rows = row :: rows2
      ∧ row.Description = repo.description.getD (.jstr "N/A")
      ∧ row.Language = repo.language.getD (.jstr "N/A")
      ∧ row.Stars = repo.stargazers_count.getD (.jint 0)
      ∧ row.Forks = repo.forks_count.getD (.jint 0)
      ∧ row.OpenIssues = repo.open_issues_count.getD (.jint 0) := by
  simp only [grs_create_repo_dataframe, py_bind_run] at h
  cases hname : repo.name with
  | none => rw [hname] at h; simp at h
  | some nv =>
      rw [hname] at h
      simp only [dictIndex_some] at h
      rcases hf : grs_fetch_readme net owner (pyStr nv) t with ⟨resf, tf⟩
      rw [hf] at h
      cases resf with
      | error e => simp at h
      | ok rd =>
          cases hurl : repo.html_url with
          | none => rw [hurl] at h; simp at h
          | some uv =>
              rw [hurl] at h
              simp only [dictIndex_some] at h
              rcases hrec : grs_create_repo_dataframe net owner rest tf
                with ⟨resr, tr⟩
              rw [hrec] at h
              cases resr with
              | error e => simp at h
              | ok rows2 =>
                  simp only [py_pure_run, Prod.mk.injEq,
                    Except.ok.injEq] at h
                  exact ⟨_, rows2, h.1.symm, rfl, rfl, rfl, rfl, rfl⟩

/-- Witness for the amended C10 at the concrete null-field repository. -/
theorem c10_witness :
    ∃ row rows2, [c10Row] = row :: rows2
      ∧ row.Description = c10Repo.description.getD (.jstr "N/A")
      ∧ row.Language = c10Repo.language.getD (.jstr "N/A")
      ∧ row.Stars = c10Repo.stargazers_count.getD (.jint 0)
      ∧ row.Forks = c10Repo.forks_count.getD (.jint 0)
      ∧ row.OpenIssues = c10Repo.open_issues_count.getD (.jint 0) :=
  c10_missing_key_defaults failNet "acme" c10Repo [] [] [c10Row]
    [.http (.get (readmeUrl "acme" "widgets"))] rfl
